import Mathlib

/-!
Verification development for the F1 pit-strategy reinforcement-learning core
(`backend-python/ml_models/pit_strategy_rl.py` and the prediction endpoint in
`backend-python/ml_models/strategy_engine.py`).

The Python code is shallowly embedded: real-valued quantities become `ℚ`,
`numpy` arrays become `List ℚ`, the Q-table `defaultdict` becomes an
association list with an explicit default lookup, and the two sources of
randomness (the grid-position draw in `reset` and the 10 %-per-lap weather
toggle in `step`) become explicit parameters (a grid position argument and a
`Bool` toggle argument per step).  The tire-degradation oracle
(`TireDegradationPredictor.predict_degradation` / the untrained fallback
formula) is a function parameter `Oracle`; the track temperature (constant 35)
and the fuel load (a function of the lap number alone) are determined by the
state, so the oracle receives driver, track, tire age, compound and lap.
-/

/-- Record appended to `pit_history` on every pit action
(`{'lap': ..., 'compound': ..., 'position': ...}` in `step`).  The compound is
stored as its display name, as in the Python dict. -/
structure PitRecord where
  lap : ℕ
  compound : String
  position : ℕ
deriving DecidableEq

/-- The mutable race state owned by `F1RaceEnvironment` (fields set by
`reset` and mutated by `step`).  `weather` is the 0/1 integer of the source. -/
structure RaceState where
  current_lap : ℕ
  tire_age : ℕ
  tire_compound : ℕ
  track_position : ℕ
  driver : String
  track : String
  total_time : ℚ
  pit_stops : ℕ
  weather : ℕ
  lap_times : List ℚ
  pit_history : List PitRecord
deriving DecidableEq

/-- Static environment parameters (`self.total_laps`, `self.pit_stop_time`,
`self.track_data['base_lap_time']`). -/
structure EnvConfig where
  total_laps : ℕ
  pit_stop_time : ℚ
  base_lap_time : ℚ
deriving DecidableEq

/-- The constructor's values: 70 laps, 24 s pit loss, 85 s base lap
(Silverstone). -/
def silverstoneConfig : EnvConfig :=
  { total_laps := 70, pit_stop_time := 24, base_lap_time := 85 }

/-- The map `self.tire_compounds` from compound index to display name. -/
def tire_compounds (c : ℕ) : String :=
  if c = 0 then "SOFT" else if c = 1 then "MEDIUM" else "HARD"

/-- A tire-degradation oracle: driver, track, tire age, compound index and lap
number to a lap-time penalty in seconds.  Stands for
`TireDegradationPredictor.predict_degradation` (track temperature and fuel
load are functions of the lap and are absorbed here). -/
def Oracle : Type := String → String → ℕ → ℕ → ℕ → ℚ

/-- The fallback rate table `[0.08, 0.04, 0.02][compound]`. -/
def base_rate (c : ℕ) : ℚ :=
  if c = 0 then 8 / 100 else if c = 1 then 4 / 100 else 2 / 100

/-- The untrained-model fallback
`base_rate * tire_age * (1 + tire_age * 0.02)`. -/
def fallbackOracle : Oracle :=
  fun _ _ age comp _ => base_rate comp * (age : ℚ) * (1 + (age : ℚ) * (2 / 100))

/-- An oracle pinned to zero degradation (the stubbed oracle of the spec's
zero-pit scenario). -/
def zeroOracle : Oracle := fun _ _ _ _ _ => 0

/-- The oracle query made by `_get_state` and `step` at the current state. -/
def degAt (deg : Oracle) (s : RaceState) : ℚ :=
  deg s.driver s.track s.tire_age s.tire_compound s.current_lap

/-- Embeds `F1RaceEnvironment.reset(driver, track)`: lap 1, fresh MEDIUM tires,
the given grid position (drawn from `[1, 20]` in the source), dry weather,
empty histories. -/
def resetState (driver track : String) (grid : ℕ) : RaceState :=
  { current_lap := 1, tire_age := 0, tire_compound := 1, track_position := grid,
    driver := driver, track := track, total_time := 0, pit_stops := 0,
    weather := 0, lap_times := [], pit_history := [] }

/-- Embeds `F1RaceEnvironment._get_state()`: the 8-component normalized state vector.
The laps-remaining component is the Python integer subtraction
`total_laps - current_lap`, which can be negative, hence the cast to `ℚ`
before subtracting. -/
def get_state (cfg : EnvConfig) (deg : Oracle) (s : RaceState) : List ℚ :=
  [ (s.current_lap : ℚ) / (cfg.total_laps : ℚ),
    (s.tire_age : ℚ) / 50,
    (s.tire_compound : ℚ) / 2,
    (s.track_position : ℚ) / 20,
    min (degAt deg s) 5 / 5,
    ((cfg.total_laps : ℚ) - (s.current_lap : ℚ)) / (cfg.total_laps : ℚ),
    (s.weather : ℚ),
    (s.pit_stops : ℚ) / 3 ]

/-- The terminal pit-count adjustment of `step`: +10 for 1 or 2 stops, −5 for
0 stops or more than 3. -/
def pitCountReward (p : ℕ) : ℚ :=
  if 1 ≤ p ∧ p ≤ 2 then 10 else if p = 0 ∨ 3 < p then -5 else 0

/-- The weather branch of `step`: when the 10 % draw fires the weather
toggles, and a −2 penalty applies exactly when the new weather is wet. -/
def weatherPenalty (oldWeather : ℕ) (toggle : Bool) : ℚ :=
  if toggle then (if 1 - oldWeather = 1 then -2 else 0) else 0

/-- The lap time computed at the top of `step`: base lap time plus
degradation plus the traffic penalty `(position - 10) * 0.1` for positions
above 10. -/
def lapTimeOf (cfg : EnvConfig) (deg : Oracle) (s : RaceState) : ℚ :=
  cfg.base_lap_time + degAt deg s +
    (if 10 < s.track_position then ((s.track_position : ℚ) - 10) * (1 / 10) else 0)

/-- Embeds `F1RaceEnvironment.step(action)` with the weather draw made explicit
(`wtoggle` is the event `random.random() < 0.1`).  Action 0 continues; any
other action pits for compound `action - 1`.  Faithful to the source, the
strategic-bonus test reads `tire_age` from the state in which it was just
reset to 0 (`s1.tire_age`), and the terminal check, rewards and weather
toggle happen in the source's order.  Returns (new state, step reward, done).
The state vector the Python method returns is `get_state` of the new state. -/
def step (cfg : EnvConfig) (deg : Oracle) (s : RaceState) (action : ℕ)
    (wtoggle : Bool) : RaceState × ℚ × Bool :=
  let lap_time := lapTimeOf cfg deg s
  let acted : RaceState × ℚ :=
    if action = 0 then
      ({ s with tire_age := s.tire_age + 1, total_time := s.total_time + lap_time }, 0)
    else
      let new_compound := action - 1
      let position_loss := min 3 (20 - s.track_position)
      let new_position := min 20 (s.track_position + position_loss)
      let s1 : RaceState :=
        { s with total_time := s.total_time + lap_time + cfg.pit_stop_time,
                 tire_compound := new_compound,
                 tire_age := 0,
                 pit_stops := s.pit_stops + 1,
                 track_position := new_position,
                 pit_history := s.pit_history ++
                   [{ lap := s.current_lap, compound := tire_compounds new_compound,
                      position := new_position }] }
      (s1, if 15 < s.current_lap ∧ 15 < s1.tire_age then 5 else 0)
  let s2 : RaceState :=
    { acted.1 with lap_times := acted.1.lap_times ++ [lap_time],
                   current_lap := acted.1.current_lap + 1 }
  let done : Bool := decide (cfg.total_laps < s2.current_lap)
  let reward2 := acted.2 +
    (if done then -s2.total_time / 100 + pitCountReward s2.pit_stops else 0)
  let reward3 := reward2 - 1 / 10
  let s3 := if wtoggle then { s2 with weather := 1 - s2.weather } else s2
  (s3, reward3 + weatherPenalty s2.weather wtoggle, done)

/-- The state component of `step`. -/
def stepState (cfg : EnvConfig) (deg : Oracle) (s : RaceState) (action : ℕ)
    (wtoggle : Bool) : RaceState :=
  (step cfg deg s action wtoggle).1

/-- Run a finite sequence of `step` calls (each element is an action together
with that lap's weather draw), keeping the final state. -/
def runActions (cfg : EnvConfig) (deg : Oracle) :
    RaceState → List (ℕ × Bool) → RaceState
  | s, [] => s
  | s, (a, w) :: rest => runActions cfg deg (stepState cfg deg s a w) rest

/-- A discrete Q-table key: the 8 bucketed state components
(`_state_to_key`). -/
abbrev DKey : Type := List ℕ

/-- A Q-value row: one estimate per action (`np.zeros(4)` by default). -/
abbrev Vec4 : Type := List ℚ

/-- One state component's bucket: `int(np.clip(value * 10, 0, 9))`
(`np.clip` is min/max, and `int` truncates, which on the clipped nonnegative
value is the floor). -/
def binOf (v : ℚ) : ℕ := (min (max (v * 10) 0) 9).floor.toNat

/-- Embeds `PitStrategyQLearning._state_to_key(state)` with `bins = 10`. -/
def state_to_key (v : List ℚ) : DKey := v.map binOf

/-- Lookup in the sparse Q-table: the `defaultdict(lambda: np.zeros(4))`
semantics — absent keys hold the all-zero row. -/
def qLookup : List (DKey × Vec4) → DKey → Vec4
  | [], _ => List.replicate 4 (0 : ℚ)
  | (k, v) :: rest, key => if k = key then v else qLookup rest key

/-- The mutable fields of `PitStrategyQLearning`: Q-table, the five scalar
hyperparameters, and the training statistics.  (The replay buffer `memory`
and `batch_size` are declared in the source but never drive updates or
persistence, and `state_size`/`action_size` are carried as plain data.) -/
structure Agent where
  state_size : ℕ
  action_size : ℕ
  learning_rate : ℚ
  discount_factor : ℚ
  epsilon : ℚ
  epsilon_decay : ℚ
  epsilon_min : ℚ
  q_table : List (DKey × Vec4)
  training_rewards : List ℚ
  training_times : List ℚ
  episode_count : ℕ
deriving DecidableEq

/-- The constructor's default hyperparameters. -/
def defaultAgent : Agent :=
  { state_size := 8, action_size := 4, learning_rate := 1 / 10,
    discount_factor := 95 / 100, epsilon := 1, epsilon_decay := 995 / 1000,
    epsilon_min := 1 / 100, q_table := [], training_rewards := [],
    training_times := [], episode_count := 0 }

/-- The per-episode exploration decay at the end of `train_episode`:
`if self.epsilon > self.epsilon_min: self.epsilon *= self.epsilon_decay`. -/
def decay_exploration (eps eps_min eps_decay : ℚ) : ℚ :=
  if eps_min < eps then eps * eps_decay else eps

/-- Iterates `n` successive per-episode decays of the exploration rate. -/
def decayIter (eps_min eps_decay : ℚ) : ℕ → ℚ → ℚ
  | 0, e => e
  | n + 1, e => decayIter eps_min eps_decay n (decay_exploration e eps_min eps_decay)

/-- The dictionary `save_model` pickles.  Every field is optional because
`load_model` reads the keys one by one from an untyped dict and a missing key
raises `KeyError` mid-assignment; `epsilon_decay` has no slot at all — the
source never writes such a key. -/
structure ModelData where
  q_table : Option (List (DKey × Vec4))
  state_size : Option ℕ
  action_size : Option ℕ
  learning_rate : Option ℚ
  discount_factor : Option ℚ
  epsilon : Option ℚ
  epsilon_min : Option ℚ
  training_rewards : Option (List ℚ)
  training_times : Option (List ℚ)
  episode_count : Option ℕ
  timestamp : Option String
deriving DecidableEq

/-- Embeds `PitStrategyQLearning.save_model`: the pickled dict.  `now` stands for
`datetime.now().isoformat()`. -/
def save_model (a : Agent) (now : String) : ModelData :=
  { q_table := some a.q_table, state_size := some a.state_size,
    action_size := some a.action_size, learning_rate := some a.learning_rate,
    discount_factor := some a.discount_factor, epsilon := some a.epsilon,
    epsilon_min := some a.epsilon_min,
    training_rewards := some a.training_rewards,
    training_times := some a.training_times,
    episode_count := some a.episode_count, timestamp := some now }

/-- Embeds `PitStrategyQLearning.load_model`.  A `none` artifact models a
missing or unreadable file (`pickle.load` raises before any mutation and the
`except` returns `False`).  A present artifact is read key by key in the
source's order; the first missing key raises `KeyError`, caught by the same
`except`, leaving every assignment already made in place — in particular
`self.q_table` is replaced by a fresh empty table before `model_data['q_table']`
is even read.  The returned `Bool` is the method's return value. -/
def load_model (art : Option ModelData) (a : Agent) : Bool × Agent :=
  match art with
  | none => (false, a)
  | some md =>
    let a1 : Agent := { a with q_table := [] }
    match md.q_table with
    | none => (false, a1)
    | some qt =>
      let a2 := { a1 with q_table := qt }
      match md.state_size with
      | none => (false, a2)
      | some v1 =>
        let a3 := { a2 with state_size := v1 }
        match md.action_size with
        | none => (false, a3)
        | some v2 =>
          let a4 := { a3 with action_size := v2 }
          match md.learning_rate with
          | none => (false, a4)
          | some v3 =>
            let a5 := { a4 with learning_rate := v3 }
            match md.discount_factor with
            | none => (false, a5)
            | some v4 =>
              let a6 := { a5 with discount_factor := v4 }
              match md.epsilon with
              | none => (false, a6)
              | some v5 =>
                let a7 := { a6 with epsilon := v5 }
                match md.epsilon_min with
                | none => (false, a7)
                | some v6 =>
                  let a8 := { a7 with epsilon_min := v6 }
                  match md.training_rewards with
                  | none => (false, a8)
                  | some v7 =>
                    let a9 := { a8 with training_rewards := v7 }
                    match md.training_times with
                    | none => (false, a9)
                    | some v8 =>
                      let a10 := { a9 with training_times := v8 }
                      match md.episode_count with
                      | none => (false, a10)
                      | some v9 => (true, { a10 with episode_count := v9 })

/-- Helper for `np.argmax` over a nonempty list: index of the first maximum.  `i` is the
index of the next element, `bi`/`bv` the best index and value so far. -/
def argmaxAux (i bi : ℕ) (bv : ℚ) : List ℚ → ℕ
  | [] => bi
  | x :: rest => if bv < x then argmaxAux (i + 1) i x rest else argmaxAux (i + 1) bi bv rest

/-- Embeds `np.argmax(q_values)` (first index of the maximum; 0 on `[]`). -/
def argmaxIdx : List ℚ → ℕ
  | [] => 0
  | x :: rest => argmaxAux 1 0 x rest

/-- Embeds `choose_action(state, training=False)`: the greedy branch — the argmax of
the Q-row for the discretized state. -/
def choose_action_greedy (ag : Agent) (cfg : EnvConfig) (deg : Oracle)
    (s : RaceState) : ℕ :=
  argmaxIdx (qLookup ag.q_table (state_to_key (get_state cfg deg s)))

/-- One entry of the pit schedule `predict_strategy` records for every
non-Continue decision. -/
structure StratEntry where
  lap : ℕ
  compound : String
  position : ℕ
  tire_age : ℕ
deriving DecidableEq

/-- One entry of the race summary's lap-by-lap tire profile. -/
structure ProfileEntry where
  lap : ℕ
  tire_age : ℕ
  compound : String
  lap_time : ℚ
deriving DecidableEq

/-- Embeds `F1RaceEnvironment._get_degradation_profile`: replay `pit_history`
against `lap_times`.  `i` is the 0-based lap index, `age`/`comp` the running
tire age and compound index. -/
def degradationProfile (pits : List PitRecord) : ℕ → ℕ → ℕ → List ℚ → List ProfileEntry
  | _, _, _, [] => []
  | i, age, comp, t :: rest =>
    match pits.find? (fun p => p.lap == i + 1) with
    | some p =>
      let c := List.findIdx (fun n => n == p.compound) ["SOFT", "MEDIUM", "HARD"]
      { lap := i + 1, tire_age := 0, compound := tire_compounds c, lap_time := t } ::
        degradationProfile pits (i + 1) 1 c rest
    | none =>
      { lap := i + 1, tire_age := age, compound := tire_compounds comp, lap_time := t } ::
        degradationProfile pits (i + 1) (age + 1) comp rest

/-- The summary record returned by `F1RaceEnvironment.get_race_summary()`. -/
structure RaceSummary where
  total_time : ℚ
  pit_stops : ℕ
  pit_history : List PitRecord
  final_position : ℕ
  average_lap_time : ℚ
  total_laps : ℕ
  tire_degradation_profile : List ProfileEntry
deriving DecidableEq

/-- Build the race summary from the finished state (`np.mean` of an empty
list is replaced by the source's explicit 0 fallback). -/
def get_race_summary (s : RaceState) : RaceSummary :=
  { total_time := s.total_time, pit_stops := s.pit_stops,
    pit_history := s.pit_history, final_position := s.track_position,
    average_lap_time :=
      if s.lap_times = [] then 0 else s.lap_times.sum / (s.lap_times.length : ℚ),
    total_laps := s.lap_times.length,
    tire_degradation_profile := degradationProfile s.pit_history 0 0 1 s.lap_times }

/-- The loop of `PitStrategyQLearning.predict_strategy`: greedy action, record a
schedule entry for every pit, step, stop on `done`.  The weather draws are
the explicit `toggles` stream.  `fuel` bounds the `while True` loop; the race
finishes within `total_laps` steps, so callers pass `total_laps + 1`. -/
def predictLoop (ag : Agent) (cfg : EnvConfig) (deg : Oracle) :
    ℕ → RaceState → List Bool → List StratEntry × RaceState
  | 0, s, _ => ([], s)
  | fuel + 1, s, toggles =>
    let a := choose_action_greedy ag cfg deg s
    let dec : List StratEntry :=
      if 0 < a then
        [{ lap := s.current_lap, compound := tire_compounds (a - 1),
           position := s.track_position, tire_age := s.tire_age }]
      else []
    let r := step cfg deg s a (toggles.head?.getD false)
    if r.2.2 then (dec, r.1)
    else
      let rest := predictLoop ag cfg deg fuel r.1 toggles.tail
      (dec ++ rest.1, rest.2)

/-- Embeds `predict_strategy(env, driver, track)`: reset the environment (with the
given grid draw), run the greedy rollout, return the schedule and the race
summary. -/
def predict_strategy (ag : Agent) (cfg : EnvConfig) (deg : Oracle)
    (driver track : String) (grid : ℕ) (toggles : List Bool) :
    List StratEntry × RaceSummary :=
  let r := predictLoop ag cfg deg (cfg.total_laps + 1)
    (resetState driver track grid) toggles
  (r.1, get_race_summary r.2)

/-- The response of the `strategy_engine.predict_rl_strategy` endpoint:
either the 400 error payload or the success payload (driver, track, the
predicted schedule, the race summary and the quality label). -/
inductive RlStrategyResponse where
  | err (message : String) (status : ℕ)
  | ok (driver track : String) (strategy : List StratEntry)
      (summary : RaceSummary) (quality : String)
deriving DecidableEq

/-- The quality label computed from the rollout's total time. -/
def strategyQuality (total_time : ℚ) : String :=
  if 6000 < total_time then "Poor"
  else if 5400 < total_time then "Average"
  else if 5000 < total_time then "Good"
  else "Excellent"

/-- Embeds `strategy_engine.predict_rl_strategy`: guard on an untrained agent
(`episode_count == 0` returns the 400 error before the environment is even
reset), otherwise reset (random draw `grid1`), apply the optional
`starting_position` override, and call `predict_strategy` — which, as in the
source, resets the environment again (fresh draw `grid2`), so the override is
discarded.  `toggles` supplies the rollout's weather draws. -/
def predict_rl_strategy (ag : Agent) (cfg : EnvConfig) (deg : Oracle)
    (driver track : String) (startPos : Option ℕ) (grid1 grid2 : ℕ)
    (toggles : List Bool) : RlStrategyResponse :=
  if ag.episode_count = 0 then
    .err "RL agent not trained yet. Use /api/ml/train-rl-strategy first." 400
  else
    let s0 := resetState driver track grid1
    let _s1 := match startPos with
      | some p => { s0 with track_position := p }
      | none => s0
    let r := predict_strategy ag cfg deg driver track grid2 toggles
    .ok driver track r.1 r.2 (strategyQuality r.2.total_time)

/-- The property the spec's StateVector invariant asserts: every component of
the vector lies in the closed unit interval. -/
def allInUnit (l : List ℚ) : Prop := ∀ x ∈ l, 0 ≤ x ∧ x ≤ 1

instance (l : List ℚ) : Decidable (allInUnit l) := List.decidableBAll _ l

/-- The lap time of a Continue lap under zero degradation: base lap time plus
the traffic penalty of the (unchanging) position. -/
def contLap (p : ℕ) : ℚ :=
  85 + (if 10 < p then ((p : ℚ) - 10) * (1 / 10) else 0)

/-- The race state after `m` all-Continue steps from `reset` under the zero
oracle: lap `1 + m`, tire age `m`, `m` recorded laps of `contLap p` each. -/
def contState (d t : String) (p m : ℕ) : RaceState :=
  { current_lap := 1 + m, tire_age := m, tire_compound := 1,
    track_position := p, driver := d, track := t,
    total_time := (m : ℚ) * contLap p, pit_stops := 0, weather := 0,
    lap_times := List.replicate m (contLap p), pit_history := [] }

/-- A mid-race state with old tires (lap 20, tire age 20): by the spec's
strategic-bonus rule, pitting here must earn the +5 bonus. -/
def c1State : RaceState :=
  { resetState "HAM" "Silverstone" 5 with current_lap := 20, tire_age := 20 }

/-- A state in the Finished region (`current_lap > total_laps`): a full
70-lap race just completed. -/
def finishedState : RaceState :=
  { resetState "HAM" "Silverstone" 5 with
    current_lap := 71
    tire_age := 70
    total_time := 5950
    lap_times := List.replicate 70 85 }

/-- An agent carrying a visited Q-table entry and some training history. -/
def c4Agent : Agent :=
  { defaultAgent with
    q_table := [([0, 0, 0, 0, 0, 0, 0, 0], [1, 0, 0, 0])]
    episode_count := 3 }

/-- An artifact that unpickles to a dict with none of the expected keys. -/
def emptyModelData : ModelData :=
  { q_table := none, state_size := none, action_size := none,
    learning_rate := none, discount_factor := none, epsilon := none,
    epsilon_min := none, training_rewards := none, training_times := none,
    episode_count := none, timestamp := none }

/-- An agent configured with a non-default exploration decay. -/
def c6Agent : Agent := { defaultAgent with epsilon_decay := 1 / 2 }

/-- A trained agent with one visited key and nonempty statistics. -/
def c8Agent : Agent :=
  { defaultAgent with
    q_table := [([1, 2, 3, 4, 5, 6, 7, 8], [1, 2, 3, 4])]
    episode_count := 7
    training_rewards := [5]
    training_times := [5950] }


/-! ## Helper lemmas about `step` -/

/-- Every `step` advances the lap counter by exactly one, whatever the action
and weather draw. -/
theorem step_current_lap (cfg : EnvConfig) (deg : Oracle) (s : RaceState)
    (a : ℕ) (w : Bool) :
    (step cfg deg s a w).1.current_lap = s.current_lap + 1 := by
  cases w <;> by_cases h : a = 0 <;> simp [step, h]

/-- The `done` flag of a `step` is exactly the comparison of the advanced lap
counter with `total_laps`. -/
theorem step_done_eq (cfg : EnvConfig) (deg : Oracle) (s : RaceState)
    (a : ℕ) (w : Bool) :
    (step cfg deg s a w).2.2 = decide (cfg.total_laps < s.current_lap + 1) := by
  by_cases h : a = 0 <;> simp [step, h]

/-- After any `k`-step action sequence the lap counter has advanced by `k`. -/
theorem runActions_current_lap (cfg : EnvConfig) (deg : Oracle)
    (acts : List (ℕ × Bool)) (s : RaceState) :
    (runActions cfg deg s acts).current_lap = s.current_lap + acts.length := by
  induction acts generalizing s with
  | nil => simp [runActions]
  | cons hd tl ih =>
    obtain ⟨a, w⟩ := hd
    simp only [runActions, ih, stepState, step_current_lap, List.length_cons]
    omega

/-! ## C7: an episode terminates in exactly `total_laps` steps -/

/-- C7: for every environment with `total_laps = N` (and any oracle, grid
draw, actions and weather draws), a `step` made after `k` previous steps
returns `done = false` while `k + 1 < N` and `done = true` when `k + 1 = N`:
the first `N - 1` calls return `done == false` and the `N`-th returns
`done == true`. -/
theorem C7_episode_length (cfg : EnvConfig) (deg : Oracle)
    (driver track : String) (grid : ℕ) (pre : List (ℕ × Bool)) (a : ℕ)
    (w : Bool) :
    (pre.length + 1 < cfg.total_laps →
      (step cfg deg (runActions cfg deg (resetState driver track grid) pre)
        a w).2.2 = false) ∧
    (pre.length + 1 = cfg.total_laps →
      (step cfg deg (runActions cfg deg (resetState driver track grid) pre)
        a w).2.2 = true) := by
  have hlap := runActions_current_lap cfg deg pre (resetState driver track grid)
  rw [show (resetState driver track grid).current_lap = 1 from rfl] at hlap
  constructor <;> intro h <;> rw [step_done_eq, hlap] <;> simp <;> omega

/-- Witness for C7 at `N = 70`: after 68 all-Continue steps the 69th call is
not done, and after 69 steps the 70th call is done. -/
theorem C7_witness :
    (step silverstoneConfig zeroOracle
      (runActions silverstoneConfig zeroOracle
        (resetState "HAM" "Silverstone" 5)
        (List.replicate 68 ((0 : ℕ), false))) 0 false).2.2 = false ∧
    (step silverstoneConfig zeroOracle
      (runActions silverstoneConfig zeroOracle
        (resetState "HAM" "Silverstone" 5)
        (List.replicate 69 ((0 : ℕ), false))) 0 false).2.2 = true :=
  ⟨(C7_episode_length silverstoneConfig zeroOracle "HAM" "Silverstone" 5
      (List.replicate 68 ((0 : ℕ), false)) 0 false).1
      (by simp [silverstoneConfig]),
   (C7_episode_length silverstoneConfig zeroOracle "HAM" "Silverstone" 5
      (List.replicate 69 ((0 : ℕ), false)) 0 false).2
      (by simp [silverstoneConfig])⟩

/-! ## C10: the Finished region is absorbing but not guarded -/

/-- C10: from any state already past the last lap (`current_lap >
total_laps`), a further `step` with any action of the action set does not
fail: it reports `done = true` again, appends another entry to `lap_times`,
keeps accumulating `total_time` (the lap time, plus the pit loss on a pit
action), and re-applies the terminal reward terms: `-total_time / 100` plus
the pit-count bonus/penalty, on top of the usual per-step `-0.1` and weather
adjustment. -/
theorem C10_finished_not_guarded (cfg : EnvConfig) (deg : Oracle)
    (s : RaceState) (a : ℕ) (w : Bool) (hlap : cfg.total_laps < s.current_lap)
    (ha : a < 4) :
    (step cfg deg s a w).2.2 = true ∧
    (step cfg deg s a w).1.lap_times = s.lap_times ++ [lapTimeOf cfg deg s] ∧
    (step cfg deg s a w).1.total_time =
      s.total_time + lapTimeOf cfg deg s +
        (if a = 0 then 0 else cfg.pit_stop_time) ∧
    (step cfg deg s a w).2.1 =
      -(step cfg deg s a w).1.total_time / 100 +
        pitCountReward (step cfg deg s a w).1.pit_stops - 1 / 10 +
        weatherPenalty s.weather w := by
  have h1 : cfg.total_laps < s.current_lap + 1 := Nat.lt_succ_of_lt hlap
  by_cases h : a = 0 <;> cases w <;> simp [step, h, h1]

/-- Witness for C10: one extra Continue step on a completed 70-lap race is
done again, records a 71st lap time, grows the total and re-applies the
terminal terms. -/
theorem C10_witness :
    silverstoneConfig.total_laps < finishedState.current_lap ∧ (0 : ℕ) < 4 ∧
    ((step silverstoneConfig zeroOracle finishedState 0 false).2.2 = true ∧
     (step silverstoneConfig zeroOracle finishedState 0 false).1.lap_times =
       finishedState.lap_times ++
         [lapTimeOf silverstoneConfig zeroOracle finishedState] ∧
     (step silverstoneConfig zeroOracle finishedState 0 false).1.total_time =
       finishedState.total_time +
         lapTimeOf silverstoneConfig zeroOracle finishedState +
         (if (0 : ℕ) = 0 then 0 else silverstoneConfig.pit_stop_time) ∧
     (step silverstoneConfig zeroOracle finishedState 0 false).2.1 =
       -(step silverstoneConfig zeroOracle finishedState 0 false).1.total_time
           / 100 +
         pitCountReward
           (step silverstoneConfig zeroOracle finishedState 0 false).1.pit_stops
           - 1 / 10 +
         weatherPenalty finishedState.weather false) :=
  ⟨by decide, by decide,
   C10_finished_not_guarded silverstoneConfig zeroOracle finishedState 0 false
     (by decide) (by decide)⟩

/-! ## C1: the strategic +5 pit bonus is dead code -/

/-- C1 (divergence witness): pitting at lap 20 with tire age 20 — exactly the
undercut situation the spec's `+5` bonus is for (`current_lap > 15` and prior
`tire_age > 15`) — registers the pit stop but returns the bare per-step
reward `-0.1`: the source checks `tire_age` only after resetting it to 0, so
the bonus is never added. -/
theorem C1_bonus_never_fires :
    15 < c1State.current_lap ∧ 15 < c1State.tire_age ∧
    (step silverstoneConfig fallbackOracle c1State 1 false).1.pit_stops = 1 ∧
    (step silverstoneConfig fallbackOracle c1State 1 false).2.1 = -(1 / 10) := by
  refine ⟨by norm_num [c1State, resetState], by norm_num [c1State, resetState],
    ?_, ?_⟩ <;>
    norm_num [step, c1State, resetState, silverstoneConfig, weatherPenalty]

/-! ## C9: the untrained-agent guard of the prediction endpoint -/

/-- C9: requesting an RL strategy prediction with a freshly constructed (or
otherwise untrained) agent, `episode_count == 0`, returns the distinct
"not trained" 400 error for every driver, track, position override, grid
draw and weather stream — never a pit schedule. -/
theorem C9_untrained_guard (ag : Agent) (cfg : EnvConfig) (deg : Oracle)
    (driver track : String) (startPos : Option ℕ) (g1 g2 : ℕ)
    (toggles : List Bool) (h : ag.episode_count = 0) :
    predict_rl_strategy ag cfg deg driver track startPos g1 g2 toggles =
      .err "RL agent not trained yet. Use /api/ml/train-rl-strategy first."
        400 := by
  simp [predict_rl_strategy, h]

/-- Witness for C9: the freshly constructed agent is untrained and gets the
400 error. -/
theorem C9_witness :
    defaultAgent.episode_count = 0 ∧
    predict_rl_strategy defaultAgent silverstoneConfig fallbackOracle "HAM"
        "Silverstone" none 5 7 [] =
      .err "RL agent not trained yet. Use /api/ml/train-rl-strategy first."
        400 :=
  ⟨rfl, C9_untrained_guard defaultAgent silverstoneConfig fallbackOracle "HAM"
    "Silverstone" none 5 7 [] rfl⟩

/-! ## C3: the exploration-decay rule -/

/-- One decay never increases the rate (decay factor at most 1, nonnegative
rate). -/
theorem decay_exploration_le (e m d : ℚ) (hd1 : d ≤ 1) (he : 0 ≤ e) :
    decay_exploration e m d ≤ e := by
  unfold decay_exploration
  split
  · calc e * d ≤ e * 1 := by exact mul_le_mul_of_nonneg_left hd1 he
    _ = e := mul_one e
  · exact le_rfl

/-- One decay keeps the rate nonnegative. -/
theorem decay_exploration_nonneg (e m d : ℚ) (hd0 : 0 ≤ d) (he : 0 ≤ e) :
    0 ≤ decay_exploration e m d := by
  unfold decay_exploration
  split
  · exact mul_nonneg he hd0
  · exact he

/-- One decay keeps the rate at or above `floor * decay`. -/
theorem decay_exploration_floor (e m d : ℚ) (hd0 : 0 ≤ d)
    (hmd : m * d ≤ e) : m * d ≤ decay_exploration e m d := by
  unfold decay_exploration
  split
  · next h => exact mul_le_mul_of_nonneg_right (le_of_lt h) hd0
  · exact hmd

/-- Iterating a function one more time from a once-decayed start is the same
as decaying after the iteration. -/
theorem decayIter_comm (m d e : ℚ) (n : ℕ) :
    decayIter m d n (decay_exploration e m d) =
      decay_exploration (decayIter m d n e) m d := by
  induction n generalizing e with
  | zero => rfl
  | succ k ih => exact ih (decay_exploration e m d)

/-- The iterated rate stays nonnegative. -/
theorem decayIter_nonneg (m d e : ℚ) (n : ℕ) (hd0 : 0 ≤ d) (he : 0 ≤ e) :
    0 ≤ decayIter m d n e := by
  induction n generalizing e with
  | zero => exact he
  | succ k ih => exact ih _ (decay_exploration_nonneg e m d hd0 he)

/-- C3 (counterexample): with exploration rate 0.011, floor 0.01 and decay
0.5, the source's per-episode decay produces 0.0055 — not
`max(floor, rate * decay) = 0.01` — and the rate drops strictly below the
configured floor. -/
theorem C3_counterexample :
    decay_exploration (11 / 1000) (1 / 100) (1 / 2) ≠
      max (1 / 100) (11 / 1000 * (1 / 2)) ∧
    decay_exploration (11 / 1000) (1 / 100) (1 / 2) < 1 / 100 := by
  constructor <;> norm_num [decay_exploration]

/-- C3 (amended): the decay is `if rate > floor then rate * decay`
(no clamping `max`); for a decay factor in `[0, 1]` and a nonnegative rate
the rate is non-increasing across successive decay calls, and it never drops
below `floor * decay` (one decay factor below the floor, the best bound the
code guarantees) provided it started at or above that value. -/
theorem C3_decay_monotone_floor (m d e : ℚ) (n : ℕ) (hd0 : 0 ≤ d)
    (hd1 : d ≤ 1) (he : 0 ≤ e) (hstart : m * d ≤ e) :
    decayIter m d (n + 1) e ≤ decayIter m d n e ∧
    m * d ≤ decayIter m d n e := by
  constructor
  · have h1 : decayIter m d (n + 1) e =
        decay_exploration (decayIter m d n e) m d := decayIter_comm m d e n
    rw [h1]
    exact decay_exploration_le _ m d hd1 (decayIter_nonneg m d e n hd0 he)
  · induction n generalizing e with
    | zero => exact hstart
    | succ k ih =>
      exact ih _ (decay_exploration_nonneg e m d hd0 he)
        (decay_exploration_floor e m d hd0 hstart)

/-- Witness for C3 (amended) with the default floor 0.01, decay factor 0.5
and starting rate 1, after two decays. -/
theorem C3_witness :
    (0 : ℚ) ≤ 1 / 2 ∧ (1 : ℚ) / 2 ≤ 1 ∧ (0 : ℚ) ≤ 1 ∧
    (1 : ℚ) / 100 * (1 / 2) ≤ 1 ∧
    (decayIter (1 / 100) (1 / 2) 3 1 ≤ decayIter (1 / 100) (1 / 2) 2 1 ∧
      (1 : ℚ) / 100 * (1 / 2) ≤ decayIter (1 / 100) (1 / 2) 2 1) :=
  ⟨by norm_num, by norm_num, by norm_num, by norm_num,
   C3_decay_monotone_floor (1 / 100) (1 / 2) 1 2 (by norm_num) (by norm_num)
     (by norm_num) (by norm_num)⟩

/-! ## C4: what a failed `load` leaves behind -/

/-- C4 (counterexample): loading an artifact that unpickles to a dict with no
expected keys reports failure, yet the agent is not in its pre-call state —
its Q-table was already replaced by a fresh empty one before the first key
was read. -/
theorem C4_load_failure_mutates :
    (load_model (some emptyModelData) c4Agent).1 = false ∧
    (load_model (some emptyModelData) c4Agent).2 ≠ c4Agent := by
  constructor
  · rfl
  · simp [load_model, emptyModelData, c4Agent, defaultAgent]

/-- C4 (amended): `load` always reports failure as a result value, and when
the artifact is missing or unreadable (the unpickling itself fails) the agent
is left exactly in its pre-call state; a parsed artifact missing required
keys also yields a failure value, but then the ValueTable and the fields
assigned before the first missing key keep the loaded values. -/
theorem C4_load_missing_artifact_unchanged (a : Agent) :
    load_model none a = (false, a) := rfl

/-! ## C6: which hyperparameters survive a save/load round trip -/

/-- C6 (counterexample): an agent with exploration decay 0.5 is saved; a
fresh agent loads the artifact successfully, yet its exploration decay is the
constructor default 0.995, not the pre-save 0.5 — `save_model` writes no
`epsilon_decay` key and `load_model` reads none. -/
theorem C6_decay_not_round_tripped :
    (load_model (some (save_model c6Agent "t")) defaultAgent).1 = true ∧
    c6Agent.epsilon_decay = 1 / 2 ∧
    (load_model (some (save_model c6Agent "t")) defaultAgent).2.epsilon_decay =
      995 / 1000 ∧
    (load_model (some (save_model c6Agent "t")) defaultAgent).2.epsilon_decay ≠
      c6Agent.epsilon_decay := by
  refine ⟨rfl, rfl, rfl, ?_⟩
  simp only [load_model, save_model, c6Agent, defaultAgent]
  norm_num

/-- C6 (amended): `save` followed by `load` into a fresh agent succeeds and
restores the ValueTable, the statistics, and four of the five scalar
hyperparameters — learning rate, discount factor, exploration rate and
exploration floor; the exploration decay is not serialized, so the loading
agent keeps its own value. -/
theorem C6_roundtrip_hyperparameters (a b : Agent) (now : String) :
    (load_model (some (save_model a now)) b).1 = true ∧
    (load_model (some (save_model a now)) b).2.learning_rate =
      a.learning_rate ∧
    (load_model (some (save_model a now)) b).2.discount_factor =
      a.discount_factor ∧
    (load_model (some (save_model a now)) b).2.epsilon = a.epsilon ∧
    (load_model (some (save_model a now)) b).2.epsilon_min = a.epsilon_min ∧
    (load_model (some (save_model a now)) b).2.epsilon_decay =
      b.epsilon_decay :=
  ⟨rfl, rfl, rfl, rfl, rfl, rfl⟩

/-! ## C8: the ValueTable and statistics round trip exactly -/

/-- A key bound by no entry of the table looks up to the all-zero row. -/
theorem qLookup_absent (t : List (DKey × Vec4)) (k : DKey)
    (h : ∀ p ∈ t, p.1 ≠ k) : qLookup t k = List.replicate 4 (0 : ℚ) := by
  induction t with
  | nil => rfl
  | cons hd tl ih =>
    have hne : hd.1 ≠ k := h hd (List.mem_cons_self hd tl)
    have : qLookup (hd :: tl) k = qLookup tl k := by
      obtain ⟨k1, v1⟩ := hd
      simp only [qLookup]
      exact if_neg hne
    rw [this]
    exact ih fun p hp => h p (List.mem_cons_of_mem hd hp)

/-- C8: after save-then-load into a fresh agent, every key (visited or not)
looks up to exactly its pre-save row — in particular absent keys still map to
the all-zero vector — and `episode_count`, the training-rewards list and the
training-times list match the pre-save values exactly. -/
theorem C8_save_load_roundtrip (a b : Agent) (now : String) :
    (∀ k, qLookup (load_model (some (save_model a now)) b).2.q_table k =
      qLookup a.q_table k) ∧
    (load_model (some (save_model a now)) b).2.episode_count =
      a.episode_count ∧
    (load_model (some (save_model a now)) b).2.training_rewards =
      a.training_rewards ∧
    (load_model (some (save_model a now)) b).2.training_times =
      a.training_times ∧
    (∀ k, (∀ p ∈ a.q_table, p.1 ≠ k) →
      qLookup (load_model (some (save_model a now)) b).2.q_table k =
        List.replicate 4 (0 : ℚ)) :=
  ⟨fun _ => rfl, rfl, rfl, rfl, fun k hk => qLookup_absent a.q_table k hk⟩

/-- Witness for C8: the visited key of `c8Agent` reloads to its exact row,
the statistics match, and an unvisited key still maps to the zero row. -/
theorem C8_witness :
    qLookup (load_model (some (save_model c8Agent "t")) defaultAgent).2.q_table
        [1, 2, 3, 4, 5, 6, 7, 8] =
      qLookup c8Agent.q_table [1, 2, 3, 4, 5, 6, 7, 8] ∧
    (load_model (some (save_model c8Agent "t")) defaultAgent).2.episode_count =
      c8Agent.episode_count ∧
    qLookup (load_model (some (save_model c8Agent "t")) defaultAgent).2.q_table
        [0, 0, 0, 0, 0, 0, 0, 0] =
      List.replicate 4 (0 : ℚ) :=
  ⟨(C8_save_load_roundtrip c8Agent defaultAgent "t").1 _,
   (C8_save_load_roundtrip c8Agent defaultAgent "t").2.1,
   (C8_save_load_roundtrip c8Agent defaultAgent "t").2.2.2.2 _ (by
     intro p hp
     simp only [c8Agent] at hp
     simp only [List.mem_cons, List.not_mem_nil, or_false] at hp
     subst hp
     simp)⟩

/-! ## C2: bounds of the state vector -/

/-- C2 (counterexample): a reachable state — reset on grid 1 followed by four
pit actions — has a state-vector component outside `[0, 1]`: the pit-count
component is `4 / 3`. -/
theorem C2_vector_leaves_unit_interval :
    ¬ allInUnit (get_state silverstoneConfig zeroOracle
      (runActions silverstoneConfig zeroOracle
        (resetState "HAM" "Silverstone" 1)
        [(1, false), (1, false), (1, false), (1, false)])) := by
  intro h
  have h4 : ((4 : ℚ) / 3) ∈ get_state silverstoneConfig zeroOracle
      (runActions silverstoneConfig zeroOracle
        (resetState "HAM" "Silverstone" 1)
        [(1, false), (1, false), (1, false), (1, false)]) := by
    norm_num [runActions, stepState, step, resetState, get_state, degAt,
      zeroOracle, silverstoneConfig, lapTimeOf]
  have := (h _ h4).2
  norm_num at this

/-- C2 (amended): every component of the state vector lies in `[0, 1]` for
states whose unnormalized fields are inside the normalization ranges —
`current_lap ≤ total_laps`, `tire_age ≤ 50`, `pit_stops ≤ 3`, together with
the structural bounds `tire_compound ≤ 2`, `track_position ≤ 20`,
`weather ≤ 1` and a nonnegative degradation estimate.  Reachable states can
leave the first three ranges (the final step overshoots the lap count, a
50-lap stint overages the tires, a fourth pit stop), and then the
corresponding component exceeds 1. -/
theorem C2_state_vector_bounds (cfg : EnvConfig) (deg : Oracle) (s : RaceState)
    (hN : 0 < cfg.total_laps) (hlap : s.current_lap ≤ cfg.total_laps)
    (hage : s.tire_age ≤ 50) (hcomp : s.tire_compound ≤ 2)
    (hpos : s.track_position ≤ 20) (hw : s.weather ≤ 1) (hpit : s.pit_stops ≤ 3)
    (hdeg : 0 ≤ degAt deg s) :
    allInUnit (get_state cfg deg s) := by
  have hNq : (0 : ℚ) < (cfg.total_laps : ℚ) := by exact_mod_cast hN
  have hlapq : (s.current_lap : ℚ) ≤ (cfg.total_laps : ℚ) := by exact_mod_cast hlap
  intro x hx
  simp only [get_state, List.mem_cons, List.not_mem_nil, or_false] at hx
  rcases hx with h | h | h | h | h | h | h | h <;> subst h <;> constructor
  · positivity
  · rw [div_le_one hNq]; exact hlapq
  · positivity
  · rw [div_le_one (by norm_num)]; exact_mod_cast hage
  · positivity
  · rw [div_le_one (by norm_num)]; exact_mod_cast hcomp
  · positivity
  · rw [div_le_one (by norm_num)]; exact_mod_cast hpos
  · have h5 : (0 : ℚ) ≤ min (degAt deg s) 5 := le_min hdeg (by norm_num)
    positivity
  · rw [div_le_one (by norm_num)]; exact min_le_right _ _
  · apply div_nonneg _ (le_of_lt hNq)
    rw [sub_nonneg]; exact hlapq
  · rw [div_le_one hNq]
    have : (0 : ℚ) ≤ (s.current_lap : ℚ) := by positivity
    linarith
  · positivity
  · exact_mod_cast hw
  · positivity
  · rw [div_le_one (by norm_num)]; exact_mod_cast hpit

/-- Witness for C2 (amended): the state vector right after a reset on grid 5
has all components in `[0, 1]`. -/
theorem C2_witness :
    allInUnit (get_state silverstoneConfig zeroOracle
      (resetState "HAM" "Silverstone" 5)) :=
  C2_state_vector_bounds silverstoneConfig zeroOracle
    (resetState "HAM" "Silverstone" 5) (by norm_num [silverstoneConfig])
    (by norm_num [silverstoneConfig, resetState])
    (by norm_num [resetState]) (by norm_num [resetState])
    (by norm_num [resetState]) (by norm_num [resetState])
    (by norm_num [resetState]) (by norm_num [degAt, zeroOracle])

/-! ## C5: the zero-pit all-Continue scenario -/

/-- The state `reset` produces is the all-Continue closed form at zero completed laps. -/
theorem resetState_eq_contState (d t : String) (p : ℕ) :
    resetState d t p = contState d t p 0 := by
  simp [resetState, contState]

/-- One Continue step under the zero oracle advances the all-Continue closed
form (the position, hence the per-lap traffic penalty, never changes). -/
theorem contState_step (d t : String) (p m : ℕ) :
    stepState silverstoneConfig zeroOracle (contState d t p m) 0 false =
      contState d t p (m + 1) := by
  simp [stepState, step, lapTimeOf, degAt, zeroOracle, contState,
    silverstoneConfig, contLap, RaceState.mk.injEq, List.replicate_succ']
  exact ⟨by omega, by ring⟩

/-- The all-Continue closed form after `n` further Continue steps. -/
theorem runActions_contState (d t : String) (p : ℕ) (n : ℕ) :
    ∀ m, runActions silverstoneConfig zeroOracle (contState d t p m)
      (List.replicate n ((0 : ℕ), false)) = contState d t p (m + n) := by
  induction n with
  | zero => intro m; simp [runActions]
  | succ k ih =>
    intro m
    rw [List.replicate_succ]
    show runActions silverstoneConfig zeroOracle
      (stepState silverstoneConfig zeroOracle (contState d t p m) 0 false) _ = _
    rw [contState_step, ih (m + 1)]
    congr 1
    omega

/-- C5 (amended): with the oracle fixed at zero degradation and 70 laps, an
all-Continue episode started from any grid position in the traffic-free range
`1..10` accumulates `total_time = 70 * base_lap_time` and no pit stops, and
the terminal step's reward is `-total_time / 100` plus the pit-count term
`pitCountReward 0 = -5` (the "no pit stop" penalty) plus the per-step `-0.1`.
Positions above 10 additionally pay the per-lap traffic penalty
`0.1 * (position - 10)`, so there the total differs (see the
counterexample). -/
theorem C5_zero_pit_scenario (d t : String) (p : ℕ) (hp1 : 1 ≤ p)
    (hp10 : p ≤ 10) :
    (runActions silverstoneConfig zeroOracle (resetState d t p)
        (List.replicate 70 ((0 : ℕ), false))).total_time = 70 * 85 ∧
    (runActions silverstoneConfig zeroOracle (resetState d t p)
        (List.replicate 70 ((0 : ℕ), false))).pit_stops = 0 ∧
    (step silverstoneConfig zeroOracle
        (runActions silverstoneConfig zeroOracle (resetState d t p)
          (List.replicate 69 ((0 : ℕ), false))) 0 false).2.2 = true ∧
    (step silverstoneConfig zeroOracle
        (runActions silverstoneConfig zeroOracle (resetState d t p)
          (List.replicate 69 ((0 : ℕ), false))) 0 false).2.1 =
      -(70 * 85) / 100 + pitCountReward 0 - 1 / 10 ∧
    pitCountReward 0 = -5 := by
  have hnot : ¬ (10 < p) := by omega
  rw [resetState_eq_contState, runActions_contState, runActions_contState]
  refine ⟨?_, rfl, ?_, ?_, by norm_num [pitCountReward]⟩
  · simp [contState, contLap, hnot]
  · simp [step, contState, silverstoneConfig]
  · simp [step, lapTimeOf, degAt, zeroOracle, contState, contLap, hnot,
      silverstoneConfig, pitCountReward, weatherPenalty]
    norm_num

/-- C5 (counterexample): from grid position 20 the all-Continue episode pays
a 1-second traffic penalty every lap, so its total is `70 * 86 = 6020`, not
`70 * base_lap_time = 5950` — the claim fails for grid positions above 10. -/
theorem C5_traffic_breaks_total :
    (runActions silverstoneConfig zeroOracle
        (resetState "HAM" "Silverstone" 20)
        (List.replicate 70 ((0 : ℕ), false))).total_time = 6020 ∧
    (runActions silverstoneConfig zeroOracle
        (resetState "HAM" "Silverstone" 20)
        (List.replicate 70 ((0 : ℕ), false))).total_time ≠ 70 * 85 := by
  rw [resetState_eq_contState, runActions_contState]
  norm_num [contState, contLap]

/-- Witness for C5 (amended) at grid position 5. -/
theorem C5_witness :
    (runActions silverstoneConfig zeroOracle
        (resetState "HAM" "Silverstone" 5)
        (List.replicate 70 ((0 : ℕ), false))).total_time = 70 * 85 ∧
    (runActions silverstoneConfig zeroOracle
        (resetState "HAM" "Silverstone" 5)
        (List.replicate 70 ((0 : ℕ), false))).pit_stops = 0 ∧
    (step silverstoneConfig zeroOracle
        (runActions silverstoneConfig zeroOracle
          (resetState "HAM" "Silverstone" 5)
          (List.replicate 69 ((0 : ℕ), false))) 0 false).2.2 = true ∧
    (step silverstoneConfig zeroOracle
        (runActions silverstoneConfig zeroOracle
          (resetState "HAM" "Silverstone" 5)
          (List.replicate 69 ((0 : ℕ), false))) 0 false).2.1 =
      -(70 * 85) / 100 + pitCountReward 0 - 1 / 10 ∧
    pitCountReward 0 = -5 :=
  C5_zero_pit_scenario "HAM" "Silverstone" 5 (by norm_num) (by norm_num)
